import Mathlib

/-!
Verification of the business-clustering pipeline (app.py).

The program is a linear pandas/geopandas pipeline: load a tabular business
registry, drop noise columns, coerce identifier columns, filter out closed or
duplicate businesses, restrict to one municipality, coerce coordinates, drop
rows with missing coordinates, run ward-linkage agglomerative clustering with
5 clusters on standardized coordinates, and summarize category and legal-form
frequencies per cluster.

Shallow embedding conventions:
  - a table (pandas DataFrame) is a column-name list plus a list of rows,
    where a row is an association list from column name to cell;
  - a cell is missing (NaN), a string, or a number (modelled as a rational);
  - fallible steps (KeyError, ValueError, unsafe casts) return Except;
  - file reading is external: the Loader is modelled from the parsed table on;
  - floating-point numerics are modelled over the rationals.  The silhouette
    score value itself (which needs square roots) is not modelled; only the
    validity check silhouette_score performs on its input is, since no claim
    refers to the numeric score.  Ward-linkage merge order only compares
    monotone transforms of rational merge costs, so it is exact over the
    rationals.
-/

/-- A single cell of the table: missing (NaN), a string, or a numeric value. -/
inductive Cell where
  | missing : Cell
  | str : String → Cell
  | num : ℚ → Cell
deriving DecidableEq

/-- A row is an association list from column name to cell (first match wins,
mirroring unique pandas column labels). -/
abbrev Row := List (String × Cell)

/-- A DataFrame: the column-label list plus the rows. -/
structure DF where
  cols : List String
  rows : List Row
deriving DecidableEq

/-- Reading a column entry of a row; an absent key reads as a missing value
(frames built by the pipeline keep rows aligned with the column list). -/
def getCell : Row → String → Cell
  | [], _ => Cell.missing
  | p :: r, c => if p.1 = c then p.2 else getCell r c

/-- Whether a cell is numeric (non-missing after numeric coercion). -/
def isNumCell : Cell → Bool
  | Cell.num _ => true
  | _ => false

/-- Numeric payload of a cell (0 for non-numeric cells, never read on them). -/
def cellRat : Cell → ℚ
  | Cell.num q => q
  | _ => 0

/-- Digit-string parser used by the numeric-coercion model. -/
def parseDigits : List Char → Option Nat
  | [] => none
  | cs =>
    if cs.all (fun c => c.isDigit) then
      some (cs.foldl (fun a c => 10 * a + (c.toNat - 48)) 0)
    else none

/-- Simplified model of the pandas numeric parser (optional sign, integer
part, optional fractional part).  Exotic spellings (exponents, bare leading
or trailing dots) are out of scope; every claim only relies on the
coerce-or-missing policy, not on which exact strings parse. -/
def parseRat (s : String) : Option ℚ :=
  let t := s.trim
  let sign : ℚ := if t.startsWith "-" then -1 else 1
  let body := if t.startsWith "-" ∨ t.startsWith "+" then t.drop 1 else t
  match body.split (fun c => c = '.') with
  | [ip] => (parseDigits ip.toList).map (fun n => sign * (n : ℚ))
  | [ip, fp] =>
    match parseDigits ip.toList, parseDigits fp.toList with
    | some n, some f => some (sign * ((n : ℚ) + (f : ℚ) / ((10 : ℚ) ^ fp.length)))
    | _, _ => none
  | _ => none

/-- pd.to_numeric with errors equal to coerce, on one cell: numbers pass
through, parsable strings become numbers, everything else becomes missing. -/
def toNumericCell : Cell → Cell
  | Cell.num q => Cell.num q
  | Cell.missing => Cell.missing
  | Cell.str s =>
    match parseRat s with
    | some q => Cell.num q
    | none => Cell.missing

/-- Apply to_numeric coercion to one named column of a row. -/
def coerceColumnRow (c : String) (r : Row) : Row :=
  r.map (fun p => if p.1 = c then (p.1, toNumericCell p.2) else p)

/-- Apply to_numeric coercion to one named column of a frame. -/
def coerceColumn (c : String) (df : DF) : DF :=
  ⟨df.cols, df.rows.map (coerceColumnRow c)⟩

/-- The astype Int64 safety test: a numeric cell must hold an integer
(pandas refuses to cast a non-equivalent float to Int64); missing cells
become NA and pass. -/
def isInt64Safe : Cell → Bool
  | Cell.num q => q.den == 1
  | _ => true

/-- Model of to_numeric followed by astype Int64 on one column. -/
def int64Col (c : String) (df : DF) : Except String DF :=
  let d := coerceColumn c df
  if d.rows.all (fun r => isInt64Safe (getCell r c)) then Except.ok d
  else Except.error "cannot safely cast non-equivalent float64 to int64"

/-- The ten known-noise columns dropped by load_data. -/
def noiseColumns : List String :=
  ["Kode Pos", "Sektor Institusi", "Unnamed: 17", "Sumber Profiling",
   "Catatan Profiling", "IDSBR.1", "Nama Usaha.1", "Kegiatan Usaha",
   "Kategori.1", "KBLI.1"]

/-- DataFrame.drop(labels, axis=1): with the default errors policy, pandas
raises a KeyError as soon as any requested label is absent; otherwise the
listed columns are removed from the column list and from every row. -/
def dropColumns (names : List String) (df : DF) : Except String DF :=
  if ∀ c ∈ names, c ∈ df.cols then
    Except.ok ⟨df.cols.filter (fun c => decide (c ∉ names)),
               df.rows.map (fun r => r.filter (fun p => decide (p.1 ∉ names)))⟩
  else Except.error "KeyError: labels not found in axis"

/-- DataFrame.rename on columns: silently ignores absent keys. -/
def renameColumn (old new : String) (df : DF) : DF :=
  ⟨df.cols.map (fun c => if c = old then new else c),
   df.rows.map (fun r => r.map (fun p => if p.1 = old then (new, p.2) else p))⟩

/-- The status column examined by the Loader's exclusion filter. -/
def statusColName : String := "Keberadaan Usaha/Perusahaan"

/-- The fixed exclusion set of status literals. -/
def valuesToRemove : List String :=
  ["Duplikat", "Tidak Ditemukan", "Tutup", "Tutup Sementara"]

/-- The isin test of the status filter: a case-sensitive exact string match
against the four literals; missing and numeric cells match none of them. -/
def isExcluded : Cell → Bool
  | Cell.str s => valuesToRemove.contains s
  | _ => false

/-- The status-filter step: reading the status column raises a KeyError when
it is absent; otherwise rows whose status is in the exclusion set are
dropped. -/
def statusFilter (df : DF) : Except String DF :=
  if statusColName ∈ df.cols then
    Except.ok ⟨df.cols, df.rows.filter (fun r => !(isExcluded (getCell r statusColName)))⟩
  else Except.error "KeyError"

/-- Everything load_data does before the status filter: drop the noise
columns, coerce IDSBR and KBLI to Int64 when those columns exist, and rename
the village column. -/
def loaderPreFilter (data : DF) : Except String DF :=
  match dropColumns noiseColumns data with
  | Except.error e => Except.error e
  | Except.ok d1 =>
    match (if "IDSBR" ∈ d1.cols then int64Col "IDSBR" d1 else Except.ok d1) with
    | Except.error e => Except.error e
    | Except.ok d2 =>
      match (if "KBLI" ∈ d2.cols then int64Col "KBLI" d2 else Except.ok d2) with
      | Except.error e => Except.error e
      | Except.ok d3 => Except.ok (renameColumn "Kelurahan/Desa" "NAMOBJ" d3)

/-- load_data, from the parsed CSV table on (the file read itself is an
external boundary): column cleanup followed by the status exclusion filter. -/
def load_data (data : DF) : Except String DF :=
  match loaderPreFilter data with
  | Except.error e => Except.error e
  | Except.ok d => statusFilter d

/-- The municipality literal of the Geo-Filter. -/
def bekasiLiteral : String := "[75] BEKASI"

/-- Rows whose municipality field matches the filter literal exactly. -/
def muniFilter (rows : List Row) : List Row :=
  rows.filter (fun r => decide (getCell r "Kabupaten/Kota" = Cell.str bekasiLiteral))

/-- The municipality-filtered rows with both coordinate columns coerced to
numeric (the state just before the dropna gate). -/
def geoCoercedRows (dataset : DF) : List Row :=
  (muniFilter dataset.rows).map (fun r => coerceColumnRow "Longitude" (coerceColumnRow "Latitude" r))

/-- The dropna(subset=[Latitude, Longitude]) gate applied after coercion. -/
def geoKeptRows (dataset : DF) : List Row :=
  (geoCoercedRows dataset).filter
    (fun r => isNumCell (getCell r "Latitude") && isNumCell (getCell r "Longitude"))

/-- A GeoDataFrame: the frame plus one point geometry per row and a
coordinate reference system tag. -/
structure GeoDF where
  df : DF
  geometry : List (ℚ × ℚ)
  crs : String
deriving DecidableEq

/-- prepare_bekasi_data_geo: filter to the municipality literal, coerce the
coordinates, drop rows with a missing coordinate, and build point geometries
from (Longitude, Latitude) in EPSG 4326.  Reading an absent column raises a
KeyError. -/
def prepare_bekasi_data_geo (dataset : DF) : Except String GeoDF :=
  if "Kabupaten/Kota" ∈ dataset.cols ∧ "Latitude" ∈ dataset.cols ∧ "Longitude" ∈ dataset.cols then
    Except.ok ⟨⟨dataset.cols, geoKeptRows dataset⟩,
               (geoKeptRows dataset).map
                 (fun r => (cellRat (getCell r "Longitude"), cellRat (getCell r "Latitude"))),
               "EPSG:4326"⟩
  else Except.error "KeyError"

/-! ## Clusterer (perform_clustering) -/

/-- Row-by-row extraction of the (Latitude, Longitude) feature matrix; a
non-numeric coordinate cell makes the conversion to a float array fail. -/
def extractRows : List Row → Except String (List (ℚ × ℚ))
  | [] => Except.ok []
  | r :: rs =>
    match getCell r "Latitude", getCell r "Longitude" with
    | Cell.num a, Cell.num b =>
      match extractRows rs with
      | Except.ok tl => Except.ok ((a, b) :: tl)
      | Except.error e => Except.error e
    | _, _ => Except.error "could not convert data to float"

/-- The feature matrix bekasi_data_geo[[Latitude, Longitude]], reading an
absent column raises a KeyError. -/
def extractCoords (g : GeoDF) : Except String (List (ℚ × ℚ)) :=
  if "Latitude" ∈ g.df.cols ∧ "Longitude" ∈ g.df.cols then extractRows g.df.rows
  else Except.error "KeyError"

/-- Arithmetic mean of a list of rationals (0 on the empty list). -/
def qMean (xs : List ℚ) : ℚ := xs.sum / xs.length

/-- Population variance, as StandardScaler computes it (ddof 0). -/
def popVar (xs : List ℚ) : ℚ :=
  ((xs.map (fun x => (x - qMean xs) ^ 2)).sum) / xs.length

/-- Squared scale of one standardized feature: StandardScaler divides by the
square root of the variance and replaces a zero scale by one, so squared
distances in standardized space divide by this quantity. -/
def scaleSq (xs : List ℚ) : ℚ := if popVar xs = 0 then 1 else popVar xs

/-- Squared Euclidean distance between two raw points as measured in the
standardized feature space (exact over the rationals). -/
def sqDistScaled (vx vy : ℚ) (p q : ℚ × ℚ) : ℚ :=
  (p.1 - q.1) ^ 2 / vx + (p.2 - q.2) ^ 2 / vy

/-- The raw points belonging to a cluster of point indices. -/
def clusterPts (pts : List (ℚ × ℚ)) (c : List Nat) : List (ℚ × ℚ) :=
  c.map (fun i => pts.getD i (0, 0))

/-- Centroid of a list of points. -/
def centroid (ps : List (ℚ × ℚ)) : ℚ × ℚ :=
  (qMean (ps.map (fun p => p.1)), qMean (ps.map (fun p => p.2)))

/-- Ward merge cost of two clusters in standardized space: the increase in
total within-cluster variance caused by the merge.  Ward-linkage
agglomerative clustering (scipy and sklearn both) always merges the pair
minimizing a strictly monotone transform of this quantity, so comparing
these rational costs reproduces the merge order exactly. -/
def wardCost (vx vy : ℚ) (pts : List (ℚ × ℚ)) (c d : List Nat) : ℚ :=
  ((c.length : ℚ) * (d.length : ℚ) / ((c.length : ℚ) + (d.length : ℚ))) *
    sqDistScaled vx vy (centroid (clusterPts pts c)) (centroid (clusterPts pts d))

/-- All unordered pairs of elements of a list (each pair once, in order). -/
def allPairs : List α → List (α × α)
  | [] => []
  | x :: xs => (xs.map (fun y => (x, y))) ++ allPairs xs

/-- One agglomerative step: merge the pair of clusters with minimal Ward
cost (tie-break on first enumeration order; the spec marks tie order and
label numbering as implementation artifacts). -/
def mergeOnce (vx vy : ℚ) (pts : List (ℚ × ℚ)) (cs : List (List Nat)) : List (List Nat) :=
  match (allPairs cs).argmin (fun p => wardCost vx vy pts p.1 p.2) with
  | none => cs
  | some (c, d) => (c ++ d) :: ((cs.erase c).erase d)

/-- Merge until 5 clusters remain (fuel-bounded; fuel is the initial cluster
count, which is enough since every step removes one cluster). -/
def mergeLoop (vx vy : ℚ) (pts : List (ℚ × ℚ)) : Nat → List (List Nat) → List (List Nat)
  | 0, cs => cs
  | fuel + 1, cs =>
    if cs.length ≤ 5 then cs else mergeLoop vx vy pts fuel (mergeOnce vx vy pts cs)

/-- The 5-cluster cut of ward-linkage agglomerative clustering on the
standardized coordinates. -/
def hcClusters (pts : List (ℚ × ℚ)) : List (List Nat) :=
  mergeLoop (scaleSq (pts.map (fun p => p.1))) (scaleSq (pts.map (fun p => p.2)))
    pts (pts.length) ((List.range pts.length).map (fun i => [i]))

/-- Cluster label of one point: the position of its cluster in the final
cluster list (label numbering is an implementation artifact). -/
def labelOf (cs : List (List Nat)) (i : Nat) : Nat :=
  cs.findIdx (fun c => decide (i ∈ c))

/-- The label array fit_predict returns, one label per input point. -/
def hcLabels (pts : List (ℚ × ℚ)) : List Nat :=
  (List.range pts.length).map (labelOf (hcClusters pts))

/-- Result of perform_clustering: the frame with the cluster column attached
plus the label array.  The numeric silhouette average is not modelled (no
claim mentions its value); the validity check silhouette_score performs is. -/
structure ClusterOut where
  geo : GeoDF
  labels : List Nat
deriving DecidableEq

/-- In-row replacement of an existing column value. -/
def replaceCell (k : String) (v : Cell) (r : Row) : Row :=
  r.map (fun p => if p.1 = k then (k, v) else p)

/-- The column assignment bekasi_data_geo[cluster] = clusters: overwrite the
column when it already exists, otherwise append it at the end. -/
def assignCluster (g : GeoDF) (labels : List Nat) : GeoDF :=
  if "cluster" ∈ g.df.cols then
    ⟨⟨g.df.cols,
      List.zipWith (fun (r : Row) (l : Nat) => replaceCell "cluster" (Cell.num (l : ℚ)) r)
        g.df.rows labels⟩,
     g.geometry, g.crs⟩
  else
    ⟨⟨g.df.cols ++ ["cluster"],
      List.zipWith (fun (r : Row) (l : Nat) => r ++ [("cluster", Cell.num (l : ℚ))])
        g.df.rows labels⟩,
     g.geometry, g.crs⟩

/-- perform_clustering: extract and standardize the coordinates (fails on an
empty frame, as the scaler refuses 0 samples), cut the ward dendrogram at 5
clusters (fails when there are fewer samples than clusters), attach the
label column, and run the silhouette validity check (which requires the
number of distinct labels to lie between 2 and the sample count minus 1; in
the source the exception fires after the column assignment, but it still
aborts the call, which the error return models). -/
def perform_clustering (g : GeoDF) : Except String ClusterOut :=
  match extractCoords g with
  | Except.error e => Except.error e
  | Except.ok pts =>
    if pts.length = 0 then Except.error "Found array with 0 samples"
    else if pts.length < 5 then Except.error "Cannot extract more clusters than samples"
    else if (hcLabels pts).dedup.length < 2 ∨ pts.length - 1 < (hcLabels pts).dedup.length then
      Except.error "silhouette: number of labels out of valid range"
    else Except.ok ⟨assignCluster g (hcLabels pts), hcLabels pts⟩

/-! ## Summarizer (the per-cluster summary loop) -/

/-- Comparison used to order frequency-table entries: larger count first. -/
def countGe (a b : Cell × Nat) : Prop := b.2 ≤ a.2

instance : DecidableRel countGe := fun a b => Nat.decLe b.2 a.2

instance : IsTotal (Cell × Nat) countGe := ⟨fun a b => Nat.le_total b.2 a.2⟩

instance : IsTrans (Cell × Nat) countGe := ⟨fun _ _ _ h1 h2 => Nat.le_trans h2 h1⟩

/-- value_counts with dropna False: one entry per distinct cell value,
missing included as its own bucket, ordered by descending count (tie order
among equal counts is an implementation artifact per the spec). -/
def valueCounts (cells : List Cell) : List (Cell × Nat) :=
  List.insertionSort countGe (cells.dedup.map (fun v => (v, cells.count v)))

/-- The rows of one cluster: cluster_data in the summary loop. -/
def clusterRows (df : DF) (label : ℚ) : List Row :=
  df.rows.filter (fun r => decide (getCell r "cluster" = Cell.num label))

/-- One column of a row list, as the list of its cells. -/
def columnCells (rows : List Row) (c : String) : List Cell :=
  rows.map (fun r => getCell r c)

/-- The displayed category frequency table of one cluster:
value_counts(dropna=False).head(), and head defaults to five entries. -/
def topCategories (df : DF) (label : ℚ) : List (Cell × Nat) :=
  (valueCounts (columnCells (clusterRows df label) "Kategori")).take 5

/-- The displayed legal-form frequency table of one cluster, same shape. -/
def topLegalForms (df : DF) (label : ℚ) : List (Cell × Nat) :=
  (valueCounts (columnCells (clusterRows df label) "Bentuk Badan Hukum/Usaha")).take 5

/-! ## Session orchestration (the page script) -/

/-- Outcome of one session render.  errorHalt covers st.stop after a load
error as well as an uncaught exception; emptyWarning is the warning-and-halt
branch taken when the Geo-Filter yields zero rows; clusterError is an
exception escaping perform_clustering; rendered is the full page. -/
inductive SessionOutcome where
  | errorHalt : String → SessionOutcome
  | emptyWarning : SessionOutcome
  | clusterError : String → SessionOutcome
  | rendered : ClusterOut → SessionOutcome
deriving DecidableEq

/-- The page script from load_data on: load, geo-filter, halt with a warning
when the filtered frame is empty, otherwise cluster and render.  The
boundary-layer read feeds only the backdrop and is external. -/
def runSession (data : DF) : SessionOutcome :=
  match load_data data with
  | Except.error e => SessionOutcome.errorHalt e
  | Except.ok ds =>
    match prepare_bekasi_data_geo ds with
    | Except.error e => SessionOutcome.errorHalt e
    | Except.ok geo =>
      if geo.df.rows.isEmpty then SessionOutcome.emptyWarning
      else
        match perform_clustering geo with
        | Except.error e => SessionOutcome.clusterError e
        | Except.ok out => SessionOutcome.rendered out

/-! ## Loader lemmas -/

instance {ε α : Type} [DecidableEq ε] [DecidableEq α] : DecidableEq (Except ε α) := fun x y =>
  match x, y with
  | Except.ok a, Except.ok b =>
    if h : a = b then isTrue (by rw [h]) else isFalse (fun hc => h (Except.ok.inj hc))
  | Except.error a, Except.error b =>
    if h : a = b then isTrue (by rw [h]) else isFalse (fun hc => h (Except.error.inj hc))
  | Except.ok _, Except.error _ => isFalse (fun hc => Except.noConfusion hc)
  | Except.error _, Except.ok _ => isFalse (fun hc => Except.noConfusion hc)

/-- Inverting a successful status filter: the output keeps the columns and
filters the rows on the exclusion test. -/
theorem statusFilter_ok {d ds : DF} (h : statusFilter d = Except.ok ds) :
    ds.cols = d.cols ∧
    ds.rows = d.rows.filter (fun r => !(isExcluded (getCell r statusColName))) := by
  unfold statusFilter at h
  split at h
  · cases h; exact ⟨rfl, rfl⟩
  · cases h

/-- A successful load_data run factors through loaderPreFilter followed by
the status filter. -/
theorem load_data_ok {data ds : DF} (h : load_data data = Except.ok ds) :
    ∃ d4, loaderPreFilter data = Except.ok d4 ∧ statusFilter d4 = Except.ok ds := by
  unfold load_data at h
  cases hp : loaderPreFilter data with
  | error e => rw [hp] at h; cases h
  | ok d4 => rw [hp] at h; exact ⟨d4, rfl, h⟩

/-- C1, amended: the Loader's column-removal step succeeds exactly when
every listed noise column is present; with the default pandas drop policy,
the absence of any listed column is a KeyError, not a tolerated case. -/
theorem c1_drop_requires_all_columns (data : DF) :
    (∃ out, dropColumns noiseColumns data = Except.ok out) ↔
      ∀ c ∈ noiseColumns, c ∈ data.cols := by
  unfold dropColumns
  by_cases h : ∀ c ∈ noiseColumns, c ∈ data.cols
  · rw [if_pos h]
    exact iff_of_true ⟨_, rfl⟩ h
  · rw [if_neg h]
    exact iff_of_false (by rintro ⟨o, ho⟩; cases ho) h

/-- A table holding every pipeline column except the listed noise column
Kode Pos. -/
def dfNoKodePos : DF :=
  ⟨["Sektor Institusi", "Unnamed: 17", "Sumber Profiling", "Catatan Profiling",
    "IDSBR.1", "Nama Usaha.1", "Kegiatan Usaha", "Kategori.1", "KBLI.1",
    "IDSBR", "KBLI", "Kelurahan/Desa", "Keberadaan Usaha/Perusahaan",
    "Kabupaten/Kota", "Latitude", "Longitude", "Kategori",
    "Bentuk Badan Hukum/Usaha"], []⟩

/-- C1, counterexample to the claim as stated: on an input table missing the
single listed column Kode Pos, the column-removal step raises a KeyError
instead of succeeding. -/
theorem c1_counterexample :
    "Kode Pos" ∉ dfNoKodePos.cols ∧
      dropColumns noiseColumns dfNoKodePos =
        Except.error "KeyError: labels not found in axis" := by decide

/-- C2: exclusion completeness.  Every row of the cleaned output has a
status outside the four exclusion literals, and the status-filter step
removes no row whose status is outside that set (every surviving
pre-filter row with a non-excluded status is in the output). -/
theorem c2_exclusion_completeness (data ds : DF) (h : load_data data = Except.ok ds) :
    (∀ r ∈ ds.rows, isExcluded (getCell r statusColName) = false) ∧
    (∀ d4, loaderPreFilter data = Except.ok d4 →
      ∀ r ∈ d4.rows, isExcluded (getCell r statusColName) = false → r ∈ ds.rows) := by
  obtain ⟨d4, hp, hs⟩ := load_data_ok h
  have hrows := (statusFilter_ok hs).2
  constructor
  · intro r hr
    rw [hrows] at hr
    have hc := List.of_mem_filter hr
    simpa using hc
  · intro d4x hp4 r hr hex
    rw [hp] at hp4
    cases hp4
    rw [hrows]
    exact List.mem_filter.mpr ⟨hr, by simp [hex]⟩

/-- The full column list of the raw input table used by concrete runs. -/
def allColsW : List String :=
  noiseColumns ++ ["IDSBR", "KBLI", "Kelurahan/Desa", statusColName,
    "Kabupaten/Kota", "Latitude", "Longitude", "Kategori", "Bentuk Badan Hukum/Usaha"]

/-- One raw input row with the given status, municipality, coordinates,
category and legal form. -/
def mkRowW (status kab lat lon kat bf : Cell) : Row :=
  (noiseColumns.map (fun c => (c, Cell.str "x"))) ++
  [("IDSBR", Cell.num 1), ("KBLI", Cell.num 10), ("Kelurahan/Desa", Cell.str "Desa"),
   (statusColName, status), ("Kabupaten/Kota", kab), ("Latitude", lat),
   ("Longitude", lon), ("Kategori", kat), ("Bentuk Badan Hukum/Usaha", bf)]

/-- A concrete raw table: one closed business, one with missing status, one
active. -/
def dfW : DF :=
  ⟨allColsW,
   [mkRowW (Cell.str "Tutup") (Cell.str "[75] BEKASI") (Cell.num 1) (Cell.num 2)
      (Cell.str "G") (Cell.str "P"),
    mkRowW Cell.missing (Cell.str "[75] BEKASI") (Cell.num (-6)) (Cell.num 107)
      (Cell.str "G") (Cell.str "P"),
    mkRowW (Cell.str "Aktif") (Cell.str "[75] BEKASI") (Cell.num (-7)) (Cell.num 106)
      (Cell.str "F") (Cell.str "P")]⟩

/-- The cleaned record set load_data produces on dfW. -/
def dsW : DF := (load_data dfW).toOption.getD ⟨[], []⟩

/-- The intermediate frame just before the status filter on dfW. -/
def preW : DF := (loaderPreFilter dfW).toOption.getD ⟨[], []⟩

/-- C2 witness at the concrete table dfW. -/
theorem c2_witness :
    load_data dfW = Except.ok dsW ∧
    ((∀ r ∈ dsW.rows, isExcluded (getCell r statusColName) = false) ∧
     (∀ d4, loaderPreFilter dfW = Except.ok d4 →
       ∀ r ∈ d4.rows, isExcluded (getCell r statusColName) = false → r ∈ dsW.rows)) :=
  ⟨by decide, c2_exclusion_completeness dfW dsW (by decide)⟩

/-- C8: Loader determinism.  Two runs on identical input tables produce
identical cleaned record sets: same row count, same column set, same
values.  The Loader is a pure function of the parsed table. -/
theorem c8_loader_deterministic (a b ds1 ds2 : DF) (hab : a = b)
    (h1 : load_data a = Except.ok ds1) (h2 : load_data b = Except.ok ds2) :
    ds1.rows.length = ds2.rows.length ∧ ds1.cols = ds2.cols ∧ ds1.rows = ds2.rows := by
  subst hab
  rw [h1] at h2
  cases h2
  exact ⟨rfl, rfl, rfl⟩

/-- C8 witness at the concrete table dfW. -/
theorem c8_witness :
    dfW = dfW ∧ load_data dfW = Except.ok dsW ∧ load_data dfW = Except.ok dsW ∧
    (dsW.rows.length = dsW.rows.length ∧ dsW.cols = dsW.cols ∧ dsW.rows = dsW.rows) :=
  ⟨rfl, by decide, by decide,
   c8_loader_deterministic dfW dfW dsW dsW rfl (by decide) (by decide)⟩

/-- C9: a row whose status cell is missing matches none of the four string
literals, so the status filter retains it in the cleaned record set. -/
theorem c9_missing_status_retained (data ds d4 : DF)
    (h : load_data data = Except.ok ds) (hp : loaderPreFilter data = Except.ok d4) :
    isExcluded Cell.missing = false ∧
    ∀ r ∈ d4.rows, getCell r statusColName = Cell.missing → r ∈ ds.rows := by
  obtain ⟨d4x, hpx, hs⟩ := load_data_ok h
  rw [hpx] at hp
  cases hp
  have hrows := (statusFilter_ok hs).2
  refine ⟨rfl, fun r hr hm => ?_⟩
  rw [hrows]
  exact List.mem_filter.mpr ⟨hr, by simp [hm, isExcluded]⟩

/-- C9 witness: on dfW the second row has a missing status and survives into
the cleaned set. -/
theorem c9_witness :
    load_data dfW = Except.ok dsW ∧ loaderPreFilter dfW = Except.ok preW ∧
    (isExcluded Cell.missing = false ∧
     ∀ r ∈ preW.rows, getCell r statusColName = Cell.missing → r ∈ dsW.rows) :=
  ⟨by decide, by decide,
   c9_missing_status_retained dfW dsW preW (by decide) (by decide)⟩

/-- C7: when the Geo-Filter yields zero rows the session renders the
empty-data warning and halts; the outcome is the warning state, so the
Clusterer is never invoked on an empty Geo-Tagged set. -/
theorem c7_empty_halts (data ds : DF) (geo : GeoDF)
    (h : load_data data = Except.ok ds)
    (hg : prepare_bekasi_data_geo ds = Except.ok geo)
    (he : geo.df.rows = []) :
    runSession data = SessionOutcome.emptyWarning := by
  unfold runSession
  simp [h, hg, he]

/-- A raw table with every expected column and no rows at all. -/
def dfW7 : DF := ⟨allColsW, []⟩

/-- The cleaned set and geo frame obtained from the empty table. -/
def dsW7 : DF := (load_data dfW7).toOption.getD ⟨[], []⟩

/-- The Geo-Tagged frame obtained from the empty cleaned set. -/
def geoW7 : GeoDF := (prepare_bekasi_data_geo dsW7).toOption.getD ⟨⟨[], []⟩, [], ""⟩

/-- C7 witness: the empty concrete run halts in the warning state. -/
theorem c7_witness :
    load_data dfW7 = Except.ok dsW7 ∧
    prepare_bekasi_data_geo dsW7 = Except.ok geoW7 ∧
    geoW7.df.rows = [] ∧
    runSession dfW7 = SessionOutcome.emptyWarning :=
  ⟨by decide, by decide, by decide,
   c7_empty_halts dfW7 dsW7 geoW7 (by decide) (by decide) (by decide)⟩

/-! ## Geo-Filter lemmas -/

/-- Coercing one column leaves the reads of every other column unchanged. -/
theorem getCell_coerce_ne {k c : String} (h : c ≠ k) (r : Row) :
    getCell (coerceColumnRow k r) c = getCell r c := by
  induction r with
  | nil => rfl
  | cons p r ih =>
    by_cases hp : p.1 = k
    · have hpc : ¬ p.1 = c := fun hc => h (hc.symm.trans hp)
      simp only [coerceColumnRow, List.map_cons, if_pos hp, getCell, if_neg hpc] at ih ⊢
      exact ih
    · by_cases hc : p.1 = c
      · simp only [coerceColumnRow, List.map_cons, if_neg hp, getCell, if_pos hc]
      · simp only [coerceColumnRow, List.map_cons, if_neg hp, getCell, if_neg hc] at ih ⊢
        exact ih

/-- Inverting a successful Geo-Filter run. -/
theorem prepare_ok {ds : DF} {geo : GeoDF}
    (h : prepare_bekasi_data_geo ds = Except.ok geo) :
    geo.df.cols = ds.cols ∧ geo.df.rows = geoKeptRows ds ∧
    geo.geometry = (geoKeptRows ds).map
      (fun r => (cellRat (getCell r "Longitude"), cellRat (getCell r "Latitude"))) ∧
    geo.crs = "EPSG:4326" := by
  unfold prepare_bekasi_data_geo at h
  split at h
  · cases h; exact ⟨rfl, rfl, rfl, rfl⟩
  · cases h

/-- C3: Geo-Filter postcondition.  Every record of the Geo-Tagged output has
a municipality field exactly equal to the filter literal and numeric
(non-missing) latitude and longitude after coercion, and the output rows are
exactly the coerced municipality rows that pass the two-coordinate
completeness gate — every row missing either coordinate after coercion is
excluded. -/
theorem c3_geo_postcondition (ds : DF) (geo : GeoDF)
    (h : prepare_bekasi_data_geo ds = Except.ok geo) :
    (∀ r ∈ geo.df.rows,
      getCell r "Kabupaten/Kota" = Cell.str bekasiLiteral ∧
      isNumCell (getCell r "Latitude") = true ∧
      isNumCell (getCell r "Longitude") = true) ∧
    geo.df.rows = (geoCoercedRows ds).filter
      (fun r => isNumCell (getCell r "Latitude") && isNumCell (getCell r "Longitude")) := by
  have hr := (prepare_ok h).2.1
  refine ⟨?_, by rw [hr]; rfl⟩
  intro r hmem
  rw [hr] at hmem
  unfold geoKeptRows at hmem
  have hcond := List.of_mem_filter hmem
  have hmem2 := List.mem_of_mem_filter hmem
  unfold geoCoercedRows at hmem2
  obtain ⟨r0, hr0, rfl⟩ := List.mem_map.mp hmem2
  have hmuni := List.of_mem_filter hr0
  obtain ⟨h1, h2⟩ := Bool.and_eq_true_iff.mp hcond
  refine ⟨?_, h1, h2⟩
  rw [getCell_coerce_ne (by decide), getCell_coerce_ne (by decide)]
  exact of_decide_eq_true hmuni

/-- The Geo-Tagged frame built from the cleaned concrete table dsW. -/
def geoW : GeoDF := (prepare_bekasi_data_geo dsW).toOption.getD ⟨⟨[], []⟩, [], ""⟩

/-- C3 witness at the concrete cleaned table dsW. -/
theorem c3_witness :
    prepare_bekasi_data_geo dsW = Except.ok geoW ∧
    ((∀ r ∈ geoW.df.rows,
      getCell r "Kabupaten/Kota" = Cell.str bekasiLiteral ∧
      isNumCell (getCell r "Latitude") = true ∧
      isNumCell (getCell r "Longitude") = true) ∧
     geoW.df.rows = (geoCoercedRows dsW).filter
      (fun r => isNumCell (getCell r "Latitude") && isNumCell (getCell r "Longitude"))) :=
  ⟨by decide, c3_geo_postcondition dsW geoW (by decide)⟩

/-! ## Summarizer lemmas -/

/-- The counts in a full value_counts table (missing bucket included) sum to
the number of cells counted. -/
theorem valueCounts_sum (cells : List Cell) :
    ((valueCounts cells).map (fun e => e.2)).sum = cells.length := by
  unfold valueCounts
  have hp := (List.perm_insertionSort countGe
    (cells.dedup.map (fun v => (v, cells.count v)))).map (fun e : Cell × Nat => e.2)
  rw [hp.sum_eq, List.map_map]
  exact List.sum_map_count_dedup_eq_length cells

/-- A value_counts table has one entry per distinct value. -/
theorem valueCounts_length (cells : List Cell) :
    (valueCounts cells).length = cells.dedup.length := by
  unfold valueCounts
  rw [(List.perm_insertionSort countGe _).length_eq, List.length_map]

/-- C6, amended: the counts of the full per-cluster category frequency table
(value_counts with dropna false, missing values counted as their own bucket,
before the head truncation) sum to the cluster's record count; the displayed
head-5 table satisfies the same identity only when the cluster has at most
five distinct category values. -/
theorem c6_category_counts_total (df : DF) (label : ℚ) :
    ((valueCounts (columnCells (clusterRows df label) "Kategori")).map (fun e => e.2)).sum
      = (clusterRows df label).length ∧
    ((columnCells (clusterRows df label) "Kategori").dedup.length ≤ 5 →
      ((topCategories df label).map (fun e => e.2)).sum = (clusterRows df label).length) := by
  constructor
  · rw [valueCounts_sum]
    exact List.length_map _ _
  · intro hle
    unfold topCategories
    rw [List.take_of_length_le (by rw [valueCounts_length]; exact hle), valueCounts_sum]
    exact List.length_map _ _

/-- A labeled frame whose single cluster holds six records with six distinct
category values. -/
def dfC6 : DF :=
  ⟨["cluster", "Kategori"],
   [[("cluster", Cell.num 0), ("Kategori", Cell.str "A")],
    [("cluster", Cell.num 0), ("Kategori", Cell.str "B")],
    [("cluster", Cell.num 0), ("Kategori", Cell.str "C")],
    [("cluster", Cell.num 0), ("Kategori", Cell.str "D")],
    [("cluster", Cell.num 0), ("Kategori", Cell.str "E")],
    [("cluster", Cell.num 0), ("Kategori", Cell.str "F")]]⟩

/-- C6, counterexample to the claim as stated about the displayed summary:
with six distinct category values in a cluster of six records, the counts in
the rendered head-5 summary sum to 5, not to the cluster's total of 6. -/
theorem c6_counterexample :
    (clusterRows dfC6 0).length = 6 ∧
    ((topCategories dfC6 0).map (fun e => e.2)).sum = 5 := by decide

/-- C5, amended: for every labeled record set and cluster label, the
summary loop displays the head of the descending-count frequency table of
the category field and of the legal-form field, and head defaults to five
entries, not three: each displayed table has min 5 d entries where d is the
number of distinct values (missing bucket included) of that field in the
cluster, its entries come from the full frequency table, and that table is
sorted by descending count, so the displayed entries are the most frequent
ones. -/
theorem c5_top_five (df : DF) (label : ℚ) :
    ((topCategories df label).length
        = min 5 (columnCells (clusterRows df label) "Kategori").dedup.length ∧
      List.Sorted countGe (valueCounts (columnCells (clusterRows df label) "Kategori")) ∧
      ∀ e ∈ topCategories df label,
        e ∈ valueCounts (columnCells (clusterRows df label) "Kategori")) ∧
    ((topLegalForms df label).length
        = min 5 (columnCells (clusterRows df label) "Bentuk Badan Hukum/Usaha").dedup.length ∧
      List.Sorted countGe
        (valueCounts (columnCells (clusterRows df label) "Bentuk Badan Hukum/Usaha")) ∧
      ∀ e ∈ topLegalForms df label,
        e ∈ valueCounts (columnCells (clusterRows df label) "Bentuk Badan Hukum/Usaha")) := by
  refine ⟨⟨?_, ?_, ?_⟩, ⟨?_, ?_, ?_⟩⟩
  · rw [topCategories, List.length_take, valueCounts_length]
  · exact List.sorted_insertionSort countGe _
  · exact fun e he => List.take_subset 5 _ he
  · rw [topLegalForms, List.length_take, valueCounts_length]
  · exact List.sorted_insertionSort countGe _
  · exact fun e he => List.take_subset 5 _ he

/-- A labeled frame whose single cluster holds four records with four
distinct category values. -/
def dfC5 : DF :=
  ⟨["cluster", "Kategori"],
   [[("cluster", Cell.num 0), ("Kategori", Cell.str "A")],
    [("cluster", Cell.num 0), ("Kategori", Cell.str "B")],
    [("cluster", Cell.num 0), ("Kategori", Cell.str "C")],
    [("cluster", Cell.num 0), ("Kategori", Cell.str "D")]]⟩

/-- C5, counterexample to the claim as stated: a cluster with four distinct
category values (hence at least three) gets a four-entry displayed category
summary, not exactly three — head defaults to five entries. -/
theorem c5_counterexample :
    (columnCells (clusterRows dfC5 0) "Kategori").dedup.length = 4 ∧
    (topCategories dfC5 0).length = 4 := by decide

/-! ## Clusterer lemmas -/

/-- Successful coordinate extraction yields one point per row. -/
theorem extractRows_ok_length {rows : List Row} {pts : List (ℚ × ℚ)}
    (h : extractRows rows = Except.ok pts) : pts.length = rows.length := by
  induction rows generalizing pts with
  | nil =>
    unfold extractRows at h
    cases h
    rfl
  | cons r rs ih =>
    unfold extractRows at h
    split at h
    · split at h
      · next tl htl =>
        cases h
        simp [List.length_cons, ih htl]
      · cases h
    · cases h

/-- Successful extraction from a frame yields one point per frame row. -/
theorem extractCoords_ok_length {g : GeoDF} {pts : List (ℚ × ℚ)}
    (h : extractCoords g = Except.ok pts) : pts.length = g.df.rows.length := by
  unfold extractCoords at h
  split at h
  · exact extractRows_ok_length h
  · cases h

/-- A pair enumerated by allPairs consists of one element of the list and
one element of the list with the first removed. -/
theorem allPairs_mem {α : Type} [BEq α] [LawfulBEq α] {l : List α} {a b : α}
    (h : (a, b) ∈ allPairs l) : a ∈ l ∧ b ∈ l.erase a := by
  induction l with
  | nil => cases h
  | cons x xs ih =>
    rw [allPairs] at h
    rcases List.mem_append.mp h with hm | hm
    · obtain ⟨y, hy, he⟩ := List.mem_map.mp hm
      injection he with h1 h2
      subst h1
      subst h2
      exact ⟨List.mem_cons_self _ _, by rw [List.erase_cons_head]; exact hy⟩
    · obtain ⟨ha, hb⟩ := ih hm
      refine ⟨List.mem_cons_of_mem _ ha, ?_⟩
      rw [List.erase_cons]
      by_cases hxa : x = a
      · rw [if_pos (by simp [hxa])]
        exact List.erase_subset _ _ hb
      · rw [if_neg (by simp [hxa])]
        exact List.mem_cons_of_mem _ hb

/-- Fewer than two clusters enumerate no pairs. -/
theorem allPairs_small {α : Type} {l : List α} (h : l.length < 2) : allPairs l = [] := by
  cases l with
  | nil => rfl
  | cons x xs =>
    cases xs with
    | nil => rfl
    | cons y t =>
      simp [List.length_cons] at h
      omega

/-- At least two clusters enumerate at least one pair. -/
theorem allPairs_ne_nil {α : Type} {l : List α} (h2 : 2 ≤ l.length) : allPairs l ≠ [] := by
  cases l with
  | nil => simp at h2
  | cons x xs =>
    cases xs with
    | nil => simp at h2
    | cons y t => simp [allPairs]

/-- With fewer than two clusters a merge step is the identity. -/
theorem mergeOnce_small (vx vy : ℚ) (pts : List (ℚ × ℚ)) {cs : List (List Nat)}
    (h : cs.length < 2) : mergeOnce vx vy pts cs = cs := by
  unfold mergeOnce
  rw [allPairs_small h]
  rfl

/-- With at least two clusters, a merge step picks two clusters of the list
and replaces them by their concatenation. -/
theorem mergeOnce_split (vx vy : ℚ) (pts : List (ℚ × ℚ)) {cs : List (List Nat)}
    (h2 : 2 ≤ cs.length) :
    ∃ c d, c ∈ cs ∧ d ∈ cs.erase c ∧
      mergeOnce vx vy pts cs = (c ++ d) :: ((cs.erase c).erase d) := by
  rcases harg : (allPairs cs).argmin (fun p => wardCost vx vy pts p.1 p.2) with _ | ⟨c, d⟩
  · exact absurd (List.argmin_eq_none.mp harg) (allPairs_ne_nil h2)
  · have hm := allPairs_mem (List.argmin_mem (Option.mem_def.mpr harg))
    refine ⟨c, d, hm.1, hm.2, ?_⟩
    rw [mergeOnce, harg]

/-- Each effective merge step reduces the cluster count by one. -/
theorem length_mergeOnce (vx vy : ℚ) (pts : List (ℚ × ℚ)) {cs : List (List Nat)}
    (h2 : 2 ≤ cs.length) : (mergeOnce vx vy pts cs).length = cs.length - 1 := by
  obtain ⟨c, d, hc, hd, heq⟩ := mergeOnce_split vx vy pts h2
  rw [heq]
  have h1 : (cs.erase c).length = cs.length - 1 := List.length_erase_of_mem hc
  have hh : ((cs.erase c).erase d).length = (cs.erase c).length - 1 :=
    List.length_erase_of_mem hd
  simp only [List.length_cons, hh, h1]
  omega

/-- Removing one occurrence of a member and putting it back in front is a
permutation (stated over any lawful boolean equality). -/
theorem perm_cons_erase_beq {α : Type} [BEq α] [LawfulBEq α] {a : α} {l : List α}
    (h : a ∈ l) : l.Perm (a :: l.erase a) := by
  induction l with
  | nil => cases h
  | cons x xs ih =>
    by_cases hxa : x = a
    · subst hxa
      rw [List.erase_cons_head]
    · rw [List.erase_cons_tail (by simp [hxa])]
      have hmem : a ∈ xs := by
        rcases List.mem_cons.mp h with h1 | h1
        · exact absurd h1.symm hxa
        · exact h1
      exact (List.Perm.cons x (ih hmem)).trans (List.Perm.swap a x _)

/-- A merge step permutes the union of the clusters: no point index is
created, dropped or duplicated. -/
theorem mergeOnce_flatten_perm (vx vy : ℚ) (pts : List (ℚ × ℚ)) (cs : List (List Nat)) :
    (mergeOnce vx vy pts cs).flatten.Perm cs.flatten := by
  by_cases h2 : 2 ≤ cs.length
  · obtain ⟨c, d, hc, hd, heq⟩ := mergeOnce_split vx vy pts h2
    rw [heq]
    have p1 : cs.Perm (c :: cs.erase c) := perm_cons_erase_beq hc
    have p2 : (cs.erase c).Perm (d :: (cs.erase c).erase d) := perm_cons_erase_beq hd
    have hfl : ((c ++ d) :: ((cs.erase c).erase d)).flatten
        = (c :: d :: ((cs.erase c).erase d)).flatten := by
      simp [List.append_assoc]
    rw [hfl]
    exact List.Perm.flatten (((p2.symm.cons c).trans p1.symm))
  · rw [mergeOnce_small vx vy pts (by omega)]

/-- The running invariant of the agglomerative loop: clusters are nonempty
and together they partition the point indices below n. -/
structure HCInv (n : Nat) (cs : List (List Nat)) : Prop where
  nonempty : ∀ c ∈ cs, c ≠ []
  nodup : cs.flatten.Nodup
  cover : ∀ m, m ∈ cs.flatten ↔ m < n

/-- One merge step preserves the partition invariant. -/
theorem hcInv_mergeOnce (vx vy : ℚ) (pts : List (ℚ × ℚ)) {n : Nat} {cs : List (List Nat)}
    (h : HCInv n cs) : HCInv n (mergeOnce vx vy pts cs) := by
  have hperm := mergeOnce_flatten_perm vx vy pts cs
  refine ⟨?_, hperm.symm.nodup h.nodup, fun m => hperm.mem_iff.trans (h.cover m)⟩
  by_cases h2 : 2 ≤ cs.length
  · obtain ⟨c, d, hc, hd, heq⟩ := mergeOnce_split vx vy pts h2
    rw [heq]
    intro c2 hc2
    rcases List.mem_cons.mp hc2 with rfl | hmem
    · have := h.nonempty c hc
      simp [this]
    · exact h.nonempty c2
        (List.erase_subset _ _ (List.erase_subset _ _ hmem))
  · rw [mergeOnce_small vx vy pts (by omega)]
    exact h.nonempty

/-- The merge loop preserves the partition invariant. -/
theorem hcInv_mergeLoop (vx vy : ℚ) (pts : List (ℚ × ℚ)) {n : Nat} :
    ∀ (fuel : Nat) {cs : List (List Nat)}, HCInv n cs →
      HCInv n (mergeLoop vx vy pts fuel cs)
  | 0, _, h => h
  | fuel + 1, cs, h => by
    show HCInv n (if cs.length ≤ 5 then cs
      else mergeLoop vx vy pts fuel (mergeOnce vx vy pts cs))
    split
    · exact h
    · exact hcInv_mergeLoop vx vy pts fuel (hcInv_mergeOnce vx vy pts h)

/-- The merge loop lands on exactly five clusters whenever it starts from at
least five and has enough fuel. -/
theorem length_mergeLoop (vx vy : ℚ) (pts : List (ℚ × ℚ)) :
    ∀ (fuel : Nat) {cs : List (List Nat)}, 5 ≤ cs.length → cs.length ≤ fuel + 5 →
      (mergeLoop vx vy pts fuel cs).length = 5
  | 0, cs, h5, hle => by
    show cs.length = 5
    omega
  | fuel + 1, cs, h5, hle => by
    show (if cs.length ≤ 5 then cs
      else mergeLoop vx vy pts fuel (mergeOnce vx vy pts cs)).length = 5
    split
    · next hsmall => omega
    · next hbig =>
      have h2 : 2 ≤ cs.length := by omega
      have hlen := length_mergeOnce vx vy pts h2
      exact length_mergeLoop vx vy pts fuel (by omega) (by omega)

/-- Flattening a list of singletons gives back the list. -/
theorem flatten_singletons {α : Type} (l : List α) :
    (l.map (fun a => [a])).flatten = l := by
  induction l with
  | nil => rfl
  | cons x xs ih => simp [ih]

/-- The cluster cut maintained by hcClusters satisfies the partition
invariant. -/
theorem hcClusters_inv (pts : List (ℚ × ℚ)) : HCInv pts.length (hcClusters pts) := by
  unfold hcClusters
  apply hcInv_mergeLoop
  refine ⟨?_, ?_, ?_⟩
  · intro c hc
    obtain ⟨i, _, rfl⟩ := List.mem_map.mp hc
    simp
  · rw [flatten_singletons]
    exact List.nodup_range _
  · intro m
    rw [flatten_singletons]
    exact List.mem_range

/-- With at least five points the cut has exactly five clusters. -/
theorem hcClusters_length {pts : List (ℚ × ℚ)} (h5 : 5 ≤ pts.length) :
    (hcClusters pts).length = 5 := by
  unfold hcClusters
  apply length_mergeLoop
  · rw [List.length_map, List.length_range]
    exact h5
  · rw [List.length_map, List.length_range]
    omega

/-- fit_predict returns one label per input point. -/
theorem hcLabels_length (pts : List (ℚ × ℚ)) : (hcLabels pts).length = pts.length := by
  unfold hcLabels
  rw [List.length_map, List.length_range]

/-- A covered point's label is the position of some cluster. -/
theorem labelOf_lt {n : Nat} {cs : List (List Nat)} (h : HCInv n cs) {i : Nat}
    (hi : i < n) : labelOf cs i < cs.length := by
  have hmem : i ∈ cs.flatten := (h.cover i).mpr hi
  obtain ⟨c, hc, hic⟩ := List.mem_flatten.mp hmem
  exact List.findIdx_lt_length_of_exists ⟨c, hc, by simpa using hic⟩

/-- Every label is below five when at least five points go in. -/
theorem hcLabels_lt {pts : List (ℚ × ℚ)} (h5 : 5 ≤ pts.length) :
    ∀ l ∈ hcLabels pts, l < 5 := by
  intro l hl
  obtain ⟨i, hi, rfl⟩ := List.mem_map.mp hl
  have := labelOf_lt (hcClusters_inv pts) (List.mem_range.mp hi)
  rwa [hcClusters_length h5] at this

/-- When the clusters are pairwise disjoint, a member of the cluster at
position k gets label k. -/
theorem labelOf_eq : ∀ (cs : List (List Nat)), cs.flatten.Nodup →
    ∀ (k : Nat) (hk : k < cs.length) (i : Nat), i ∈ cs[k] → labelOf cs i = k := by
  intro cs
  induction cs with
  | nil =>
    intro _ k hk
    exact absurd hk (by simp)
  | cons c cs ih =>
    intro hnd k hk i hi
    rw [List.flatten_cons, List.nodup_append] at hnd
    obtain ⟨h1, h2, hdisj⟩ := hnd
    cases k with
    | zero =>
      rw [List.getElem_cons_zero] at hi
      unfold labelOf
      rw [List.findIdx_cons]
      simp [hi]
    | succ k =>
      have hk' : k < cs.length := by
        simp [List.length_cons] at hk
        omega
      rw [List.getElem_cons_succ] at hi
      have hifl : i ∈ cs.flatten :=
        List.mem_flatten.mpr ⟨cs[k], List.getElem_mem hk', hi⟩
      have hnotc : i ∉ c := fun hic => hdisj hic hifl
      unfold labelOf
      rw [List.findIdx_cons]
      rw [show decide (i ∈ c) = false from decide_eq_false hnotc]
      have hrec := ih h2 k hk' i hi
      unfold labelOf at hrec
      simp [hrec]

/-- Every cluster position is attained by some label. -/
theorem label_attained (pts : List (ℚ × ℚ)) (k : Nat)
    (hk : k < (hcClusters pts).length) : k ∈ hcLabels pts := by
  have hinv := hcClusters_inv pts
  have hne := hinv.nonempty _ (List.getElem_mem hk)
  obtain ⟨i, hi⟩ := List.exists_mem_of_ne_nil _ hne
  have hifl : i ∈ (hcClusters pts).flatten :=
    List.mem_flatten.mpr ⟨_, List.getElem_mem hk, hi⟩
  have hiN : i < pts.length := (hinv.cover i).mp hifl
  have hlab : labelOf (hcClusters pts) i = k := labelOf_eq _ hinv.nodup k hk i hi
  exact List.mem_map.mpr ⟨i, List.mem_range.mpr hiN, hlab⟩

/-- A list with two distinct members has length at least two. -/
theorem two_le_length_of_two_mem {l : List Nat} {a b : Nat} (ha : a ∈ l) (hb : b ∈ l)
    (hne : a ≠ b) : 2 ≤ l.length := by
  cases l with
  | nil => cases ha
  | cons x t =>
    cases t with
    | nil =>
      rw [List.mem_singleton] at ha hb
      exact absurd (ha.trans hb.symm) hne
    | cons y t2 =>
      simp [List.length_cons]

/-- With at least six points there are at least two distinct labels. -/
theorem hcLabels_dedup_ge_two {pts : List (ℚ × ℚ)} (h6 : 6 ≤ pts.length) :
    2 ≤ (hcLabels pts).dedup.length := by
  have hlen := hcClusters_length (show 5 ≤ pts.length by omega)
  have h0 := label_attained pts 0 (by omega)
  have h1 := label_attained pts 1 (by omega)
  exact two_le_length_of_two_mem (List.mem_dedup.mpr h0) (List.mem_dedup.mpr h1)
    (by omega)

/-- With at least five points there are at most five distinct labels. -/
theorem hcLabels_dedup_le_five {pts : List (ℚ × ℚ)} (h5 : 5 ≤ pts.length) :
    (hcLabels pts).dedup.length ≤ 5 := by
  have hsub : (hcLabels pts).dedup ⊆ List.range 5 := by
    intro x hx
    exact List.mem_range.mpr (hcLabels_lt h5 x (List.mem_dedup.mp hx))
  have hle := ((List.nodup_dedup _).subperm hsub).length_le
  simpa using hle

/-- The cluster-column assignment pairs rows with labels. -/
theorem assignCluster_rows_length (g : GeoDF) (ls : List Nat) :
    (assignCluster g ls).df.rows.length = min g.df.rows.length ls.length := by
  unfold assignCluster
  split <;> simp only [List.length_zipWith]

/-- C4, amended: for every Geo-Tagged record set whose coordinates extract
as numbers and which holds at least six records, the Clusterer succeeds and
assigns every record exactly one integer label in the range zero to four,
with output row count equal to input row count.  (For one to five records
the call raises instead: the agglomerative cut needs at least as many
samples as clusters, and the silhouette check needs at least six.) -/
theorem c4_label_coverage (g : GeoDF) (pts : List (ℚ × ℚ))
    (hx : extractCoords g = Except.ok pts) (h6 : 6 ≤ pts.length) :
    ∃ out, perform_clustering g = Except.ok out ∧
      out.labels.length = g.df.rows.length ∧
      (∀ l ∈ out.labels, l < 5) ∧
      out.geo.df.rows.length = g.df.rows.length := by
  have hrows : pts.length = g.df.rows.length := extractCoords_ok_length hx
  have h0 : ¬ (pts.length = 0) := by omega
  have h5 : ¬ (pts.length < 5) := by omega
  have hge2 := hcLabels_dedup_ge_two h6
  have hle5 := hcLabels_dedup_le_five (show 5 ≤ pts.length by omega)
  have hsil : ¬ ((hcLabels pts).dedup.length < 2 ∨
      pts.length - 1 < (hcLabels pts).dedup.length) := by omega
  refine ⟨⟨assignCluster g (hcLabels pts), hcLabels pts⟩, ?_, ?_, ?_, ?_⟩
  · simp only [perform_clustering, hx]
    rw [if_neg h0, if_neg h5, if_neg hsil]
  · exact (hcLabels_length pts).trans hrows
  · exact hcLabels_lt (by omega)
  · show (assignCluster g (hcLabels pts)).df.rows.length = g.df.rows.length
    rw [assignCluster_rows_length, hcLabels_length, hrows]
    exact Nat.min_self _

/-- A valid one-record Geo-Tagged set. -/
def gC4 : GeoDF :=
  ⟨⟨["Latitude", "Longitude"], [[("Latitude", Cell.num 0), ("Longitude", Cell.num 0)]]⟩,
   [(0, 0)], "EPSG:4326"⟩

/-- C4, counterexample to the claim as stated: on a non-empty (one-record)
Geo-Tagged set the Clusterer raises instead of producing a labeled output,
because five clusters cannot be extracted from one sample. -/
theorem c4_counterexample :
    gC4.df.rows.length = 1 ∧
    perform_clustering gC4 = Except.error "Cannot extract more clusters than samples" := by
  decide

/-- A valid six-record Geo-Tagged set with three spatial groups. -/
def gW4 : GeoDF :=
  ⟨⟨["Latitude", "Longitude"],
    [[("Latitude", Cell.num 0), ("Longitude", Cell.num 0)],
     [("Latitude", Cell.num 0), ("Longitude", Cell.num 1)],
     [("Latitude", Cell.num 5), ("Longitude", Cell.num 5)],
     [("Latitude", Cell.num 10), ("Longitude", Cell.num 0)],
     [("Latitude", Cell.num 10), ("Longitude", Cell.num 1)],
     [("Latitude", Cell.num 20), ("Longitude", Cell.num 20)]]⟩,
   [(0, 0), (1, 0), (5, 5), (0, 10), (1, 10), (20, 20)], "EPSG:4326"⟩

/-- The coordinates extracted from gW4. -/
def ptsW4 : List (ℚ × ℚ) :=
  [(0, 0), (0, 1), (5, 5), (10, 0), (10, 1), (20, 20)]

/-- C4 witness at the concrete six-record set gW4. -/
theorem c4_witness :
    extractCoords gW4 = Except.ok ptsW4 ∧ 6 ≤ ptsW4.length ∧
    (∃ out, perform_clustering gW4 = Except.ok out ∧
      out.labels.length = gW4.df.rows.length ∧
      (∀ l ∈ out.labels, l < 5) ∧
      out.geo.df.rows.length = gW4.df.rows.length) :=
  ⟨by decide, by decide, c4_label_coverage gW4 ptsW4 (by decide) (by decide)⟩

/-- Inverting a successful Clusterer run: the coordinates extracted, and the
output is the input frame with the label column attached plus the label
array. -/
theorem perform_ok_inv {g : GeoDF} {out : ClusterOut}
    (h : perform_clustering g = Except.ok out) :
    ∃ pts, extractCoords g = Except.ok pts ∧ pts.length = g.df.rows.length ∧
      out = ⟨assignCluster g (hcLabels pts), hcLabels pts⟩ := by
  cases hx : extractCoords g with
  | error e =>
    unfold perform_clustering at h
    rw [hx] at h
    cases h
  | ok pts =>
    have heq : perform_clustering g
        = (if pts.length = 0 then
             (Except.error "Found array with 0 samples" : Except String ClusterOut)
           else if pts.length < 5 then
             Except.error "Cannot extract more clusters than samples"
           else if (hcLabels pts).dedup.length < 2 ∨
               pts.length - 1 < (hcLabels pts).dedup.length then
             Except.error "silhouette: number of labels out of valid range"
           else Except.ok ⟨assignCluster g (hcLabels pts), hcLabels pts⟩) := by
      simp only [perform_clustering, hx]
    rw [heq] at h
    refine ⟨pts, rfl, extractCoords_ok_length hx, ?_⟩
    by_cases h0 : pts.length = 0
    · rw [if_pos h0] at h
      cases h
    · rw [if_neg h0] at h
      by_cases h5 : pts.length < 5
      · rw [if_pos h5] at h
        cases h
      · rw [if_neg h5] at h
        by_cases hs : (hcLabels pts).dedup.length < 2 ∨
            pts.length - 1 < (hcLabels pts).dedup.length
        · rw [if_pos hs] at h
          cases h
        · rw [if_neg hs] at h
          exact (Except.ok.inj h).symm

/-- C10: frame property of the Clusterer.  A successful run returns the
input frame extended with the cluster column at the end: all other columns,
all rows in their original order, the point geometries and the coordinate
reference system are unchanged, and exactly one label cell is appended per
row.  (The source performs the assignment in place on the passed frame; the
embedding states the observable content of that mutation.) -/
theorem c10_frame (g : GeoDF) (out : ClusterOut)
    (h : perform_clustering g = Except.ok out) (hnc : "cluster" ∉ g.df.cols) :
    out.geo.df.cols = g.df.cols ++ ["cluster"] ∧
    out.geo.geometry = g.geometry ∧
    out.geo.crs = g.crs ∧
    out.labels.length = g.df.rows.length ∧
    out.geo.df.rows
      = List.zipWith (fun (r : Row) (l : Nat) => r ++ [("cluster", Cell.num (l : ℚ))])
          g.df.rows out.labels := by
  obtain ⟨pts, hx, hlen, rfl⟩ := perform_ok_inv h
  unfold assignCluster
  rw [if_neg hnc]
  exact ⟨rfl, rfl, rfl, (hcLabels_length pts).trans hlen, rfl⟩

/-- The Clusterer output on the concrete six-record set gW4. -/
def outW10 : ClusterOut :=
  (perform_clustering gW4).toOption.getD ⟨⟨⟨[], []⟩, [], ""⟩, []⟩

unseal Rat.add Rat.mul Rat.inv Rat.sub in
/-- C10 witness at the concrete six-record set gW4. -/
theorem c10_witness :
    perform_clustering gW4 = Except.ok outW10 ∧ "cluster" ∉ gW4.df.cols ∧
    (outW10.geo.df.cols = gW4.df.cols ++ ["cluster"] ∧
     outW10.geo.geometry = gW4.geometry ∧
     outW10.geo.crs = gW4.crs ∧
     outW10.labels.length = gW4.df.rows.length ∧
     outW10.geo.df.rows
       = List.zipWith (fun (r : Row) (l : Nat) => r ++ [("cluster", Cell.num (l : ℚ))])
           gW4.df.rows outW10.labels) :=
  ⟨by decide, by decide, c10_frame gW4 outW10 (by decide) (by decide)⟩
